import Mathlib

/-
Verification of the PDF download proxy (src/app.py) against its
specification.  The embedding models the two Flask route handlers
(docs_page for GET /docs/<token> and fetch_pdf for GET /fetch/<token>)
as pure functions over an explicit database state and a request
context.  External effects (the Supabase store, the upstream HTTP
fetch, datetime.fromisoformat) are modelled as data supplied in the
context.
-/

namespace Endpoint

/-- Value of a key in a Python dict decoded from JSON: the key can be
absent, present with value None (JSON null), or present with a string.
The distinction matters because dict.get(k, default) returns the
default only when the key is absent, not when it maps to None. -/
inductive Field where
  | missing
  | null
  | str (s : String)
deriving DecidableEq, Repr

/-- Python info.get(k): None when the key is absent or maps to None. -/
def Field.get : Field → Option String
  | .missing => none
  | .null => none
  | .str s => some s

/-- Python info.get(k, d): the default d fires only when the key is
absent; a key present with None yields None. -/
def Field.getD : Field → String → Option String
  | .missing, d => some d
  | .null, _ => none
  | .str s, _ => some s

/-- Python str() of an optional string, as used by f-string
interpolation: None prints as the four characters None. -/
def pyStr : Option String → String
  | none => "None"
  | some s => s

/-- Python s[:n] slicing on strings: the first n characters. -/
def takePy (s : String) (n : Nat) : String := ⟨s.data.take n⟩

/-- One row of the pdf_links table, as the dict returned by
sb.table(pdf_links).select(*).eq(token, t).execute(). -/
structure LinkRecord where
  token : String
  pdf_path : Field
  expires_at : Field
  filename : Field
  lender_name : Field
  deal_id : Field
  tracking_id : Field
  recipient_email : Field
deriving DecidableEq, Repr

/-- The payload inserted into pdf_views or pdf_downloads.  Both call
sites build exactly these fields (the timestamp column name differs
but carries the same value, the current UTC time). -/
structure EventRow where
  token : String
  tracking_id : Option String
  deal_id : Option String
  lender_name : Option String
  recipient_email : Option String
  ip : String
  user_agent : String
  occurredAt : Int
deriving DecidableEq, Repr

/-- The persistent store: the links table read by both handlers and
the two append-only event tables. -/
structure DB where
  links : List LinkRecord
  views : List EventRow
  downloads : List EventRow
deriving DecidableEq, Repr

/-- Outcome of requests.get(public_url): the call can raise, or
return a response with a status code and a byte body. -/
inductive FetchOutcome where
  | raises
  | response (status : Nat) (body : List Nat)
deriving DecidableEq, Repr

/-- Request-time context: the current UTC instant, the behaviour of
datetime.fromisoformat (an oracle from ISO-8601 strings to instants,
none meaning ValueError), the request headers, and the outcomes of
the external calls made by the handlers. -/
structure Ctx where
  now : Int
  fromisoformat : String → Option Int
  xForwardedFor : Option String
  remoteAddr : String
  userAgent : Option String
  viewInsertRaises : Bool
  downloadInsertRaises : Bool
  fetchOutcome : FetchOutcome

/-- An HTTP response produced by a handler: a plain-text body with a
status, the rendered docs.html landing page, a send_file response,
or the response Flask builds from an uncaught abort(status). -/
inductive HResp where
  | text (body : String) (status : Nat)
  | page (token : String) (lender : Option String)
  | file (body : List Nat) (mimetype : String) (asAttachment : Bool) (downloadName : String)
  | aborted (status : Nat)
deriving DecidableEq, Repr

/-- The HTTP status code of a response. -/
def HResp.status : HResp → Nat
  | .text _ s => s
  | .page _ _ => 200
  | .file _ _ _ _ => 200
  | .aborted s => s

/-- A Python exception escaping part of a handler: either a werkzeug
HTTPException raised by abort(status), or any other exception
(KeyError, AttributeError, ValueError, APIError, requests errors). -/
inductive Exc where
  | http (status : Nat)
  | err
deriving DecidableEq, Repr

/-- sb.table(pdf_links).select(*).eq(token, token).execute() followed
by result.data[0]: the first stored row whose token column equals the
request token, none when result.data is empty. -/
def lookupToken (db : DB) (token : String) : Option LinkRecord :=
  (db.links.filter (fun r => r.token == token)).head?

/-- datetime.fromisoformat(info[expires_at].replace(Z, +00:00)):
none models an exception — KeyError when the key is absent,
AttributeError when the value is None, ValueError when the string
does not parse. -/
def parseExpiry (ctx : Ctx) (f : Field) : Option Int :=
  match f with
  | .str s => ctx.fromisoformat (s.replace "Z" "+00:00")
  | _ => none

/-- The insert payload built identically at both call sites: the
request token, the optional link-record fields via dict.get, the
client IP (X-Forwarded-For header if present, else the connection
address), the User-Agent header truncated to 500 characters with
empty-string default, and the current time. -/
def eventRow (ctx : Ctx) (token : String) (info : LinkRecord) : EventRow :=
  { token := token
    tracking_id := info.tracking_id.get
    deal_id := info.deal_id.get
    lender_name := info.lender_name.get
    recipient_email := info.recipient_email.get
    ip := ctx.xForwardedFor.getD ctx.remoteAddr
    user_agent := takePy (ctx.userAgent.getD "") 500
    occurredAt := ctx.now }

/-- Line 109: filename = info.get(filename) or
f-string of info.get(lender_name, document) + .pdf.  The or takes the
right branch when info.get(filename) is None or the empty string. -/
def resolveFilename (info : LinkRecord) : String :=
  match info.filename.get with
  | some s => if s = "" then pyStr (info.lender_name.getD "document") ++ ".pdf" else s
  | none => pyStr (info.lender_name.getD "document") ++ ".pdf"

/-- GET /docs/<token>.  No outer try/except: an exception in the
lookup or the expiry parse escapes the handler (modelled as .error).
The view insert is wrapped in its own try/except that only logs, so
its failure never affects the response.  Returns the response (or
escaped exception) together with the resulting store state. -/
def docs_page (ctx : Ctx) (db : DB) (token : String) : Except Exc HResp × DB :=
  match lookupToken db token with
  | none => (.ok (.text "Invalid link." 404), db)
  | some info =>
    match parseExpiry ctx info.expires_at with
    | none => (.error .err, db)
    | some expires =>
      if ctx.now > expires then
        (.ok (.text "Link expired." 410), db)
      else
        (.ok (.page token (info.lender_name.getD "")),
         if ctx.viewInsertRaises then db
         else { db with views := db.views ++ [eventRow ctx token info] })

/-- The body of the try block of GET /fetch/<token>, lines 70-115.
abort(404) and abort(500) raise werkzeug HTTPException (.error
(.http _)); every other failure raises an ordinary exception
(.error .err).  The expired case is a plain return, not an abort. -/
def fetch_inner (ctx : Ctx) (db : DB) (token : String) : Except Exc HResp × DB :=
  match lookupToken db token with
  | none => (.error (.http 404), db)
  | some info =>
    match parseExpiry ctx info.expires_at with
    | none => (.error .err, db)
    | some expires =>
      if ctx.now > expires then
        (.ok (.text "Link expired" 403), db)
      else
        match info.pdf_path with
        | .str _ =>
          match ctx.fetchOutcome with
          | .raises => (.error .err, db)
          | .response status body =>
            if status ≠ 200 then (.error (.http 500), db)
            else if ctx.downloadInsertRaises then (.error .err, db)
            else
              (.ok (.file body "application/pdf" true (resolveFilename info)),
               { db with downloads := db.downloads ++ [eventRow ctx token info] })
        | _ => (.error .err, db)

/-- GET /fetch/<token>.  The except Exception block at lines 117-119
catches every exception raised inside the try — including the
HTTPException raised by abort(404) at line 73, since werkzeug
HTTPException subclasses Exception — and replaces it with abort(500),
which escapes the handler and becomes a 500 response. -/
def fetch_pdf (ctx : Ctx) (db : DB) (token : String) : HResp × DB :=
  match fetch_inner ctx db token with
  | (.ok r, db1) => (r, db1)
  | (.error _, db1) => (.aborted 500, db1)

/-! Helper lemmas -/

/-- A record returned by the token lookup has the requested token in
its token column. -/
theorem filter_head_token (l : List LinkRecord) (token : String) (info : LinkRecord)
    (h : (l.filter (fun r => r.token == token)).head? = some info) :
    info.token = token := by
  induction l with
  | nil => simp at h
  | cons a t ih =>
    rw [List.filter_cons] at h
    by_cases hb : (a.token == token) = true
    · rw [if_pos hb] at h
      simp only [List.head?_cons, Option.some.injEq] at h
      subst h
      exact eq_of_beq hb
    · rw [if_neg hb] at h
      exact ih h

/-- lookupToken only returns records whose token equals the input. -/
theorem lookupToken_token_eq (db : DB) (token : String) (info : LinkRecord)
    (h : lookupToken db token = some info) : info.token = token :=
  filter_head_token db.links token info h

/-- docs_page either leaves the store unchanged or appends exactly
one view row for the resolved record. -/
theorem docs_page_db (ctx : Ctx) (db : DB) (token : String) :
    (docs_page ctx db token).2 = db ∨
    ∃ info, lookupToken db token = some info ∧
      (docs_page ctx db token).2 =
        { db with views := db.views ++ [eventRow ctx token info] } := by
  unfold docs_page
  cases h : lookupToken db token with
  | none => simp
  | some info =>
    cases hp : parseExpiry ctx info.expires_at with
    | none => simp [hp]
    | some e =>
      by_cases hn : ctx.now > e
      · simp [hp, hn]
      · cases hv : ctx.viewInsertRaises with
        | true => simp [hp, hn, hv]
        | false => right; exact ⟨info, rfl, by simp [hp, hn, hv]⟩

/-- fetch_pdf either leaves the store unchanged or appends exactly
one download row for the resolved record. -/
theorem fetch_pdf_db (ctx : Ctx) (db : DB) (token : String) :
    (fetch_pdf ctx db token).2 = db ∨
    ∃ info, lookupToken db token = some info ∧
      (fetch_pdf ctx db token).2 =
        { db with downloads := db.downloads ++ [eventRow ctx token info] } := by
  unfold fetch_pdf fetch_inner
  cases h : lookupToken db token with
  | none => simp
  | some info =>
    cases hp : parseExpiry ctx info.expires_at with
    | none => simp [hp]
    | some e =>
      by_cases hn : ctx.now > e
      · simp [hp, hn]
      · cases hpath : info.pdf_path with
        | missing => simp [hp, hn, hpath]
        | null => simp [hp, hn, hpath]
        | str p =>
          cases hf : ctx.fetchOutcome with
          | raises => simp [hp, hn, hpath, hf]
          | response status body =>
            by_cases hs : status = 200
            · cases hd : ctx.downloadInsertRaises with
              | true => simp [hp, hn, hpath, hf, hs, hd]
              | false => right; exact ⟨info, rfl, by simp [hp, hn, hpath, hf, hs, hd]⟩
            · simp [hp, hn, hpath, hf, hs]

/-- Length of a Python slice s[:n]: the minimum of n and the length
of s. -/
theorem takePy_length (s : String) (n : Nat) :
    (takePy s n).length = min n s.length := by
  show (s.data.take n).length = min n s.data.length
  exact List.length_take n s.data

/-! Concrete sample data used by the witness theorems. -/

/-- A request context for a valid, non-expired scenario: fixed clock
at instant 10, every ISO string parsing to instant 20, a short user
agent, both inserts succeeding and the upstream fetch returning 200
with a four-byte body. -/
def ctx0 : Ctx where
  now := 10
  fromisoformat := fun _ => some 20
  xForwardedFor := none
  remoteAddr := "203.0.113.9"
  userAgent := some "Mozilla"
  viewInsertRaises := false
  downloadInsertRaises := false
  fetchOutcome := .response 200 [37, 80, 68, 70]

/-- A fully populated link record. -/
def rec0 : LinkRecord where
  token := "tok"
  pdf_path := .str "deals/a.pdf"
  expires_at := .str "2030-01-01T00:00:00Z"
  filename := .str "offer.pdf"
  lender_name := .str "Acme"
  deal_id := .str "d-1"
  tracking_id := .str "tr-1"
  recipient_email := .str "x@y.z"

/-- A store holding exactly the record rec0 and empty event tables. -/
def db0 : DB where
  links := [rec0]
  views := []
  downloads := []

/-- A link record whose filename and lender_name columns are present
but null, as a row with NULL columns is decoded from JSON. -/
def recNull : LinkRecord where
  token := "tok"
  pdf_path := .str "deals/b.pdf"
  expires_at := .str "2030-01-01T00:00:00Z"
  filename := .null
  lender_name := .null
  deal_id := .null
  tracking_id := .null
  recipient_email := .null

/-- A store holding exactly the record recNull. -/
def dbNull : DB where
  links := [recNull]
  views := []
  downloads := []

/-- A store with no link records at all. -/
def dbEmpty : DB where
  links := []
  views := []
  downloads := []

/-- ctx0 with the clock moved past the parsed expiry instant 20. -/
def ctxLate : Ctx := { ctx0 with now := 30 }

/-- ctx0 in which both event inserts raise. -/
def ctxRaise : Ctx :=
  { ctx0 with viewInsertRaises := true, downloadInsertRaises := true }

/-- ctx0 in which the upstream storage fetch answers 503. -/
def ctx503 : Ctx := { ctx0 with fetchOutcome := .response 503 [] }

/-- Once a record is resolved and not expired, fetch_pdf can only
answer the generic 500 or the successful file response. -/
theorem fetch_pdf_not_expired_shape (ctx : Ctx) (db : DB) (token : String)
    (info : LinkRecord) (e : Int)
    (h1 : lookupToken db token = some info)
    (h2 : parseExpiry ctx info.expires_at = some e)
    (hn : ¬ ctx.now > e) :
    (fetch_pdf ctx db token).1 = .aborted 500 ∨
    ∃ body, ctx.fetchOutcome = .response 200 body ∧
      (fetch_pdf ctx db token).1 =
        .file body "application/pdf" true (resolveFilename info) := by
  unfold fetch_pdf fetch_inner
  cases hpath : info.pdf_path with
  | missing => simp [h1, h2, hn, hpath]
  | null => simp [h1, h2, hn, hpath]
  | str p =>
    cases hf : ctx.fetchOutcome with
    | raises => simp [h1, h2, hn, hpath, hf]
    | response status body =>
      by_cases hs : status = 200
      · subst hs
        cases hd : ctx.downloadInsertRaises with
        | true => simp [h1, h2, hn, hpath, hf, hd]
        | false =>
          right
          exact ⟨body, rfl, by simp [h1, h2, hn, hpath, hf, hd]⟩
      · simp [h1, h2, hn, hpath, hf, hs]

/-! Claim theorems -/

/-- Claim C1: for a token matching no stored record, GET /docs/token
returns 404 with body Invalid link.  The fetch half of the claim
fails on the code: in fetch_pdf the abort(404) at line 73 raises a
werkzeug HTTPException, which subclasses Exception and is therefore
caught by the handler's own except Exception at line 117 and replaced
with abort(500) — so GET /fetch/token answers 500, not 404. -/
theorem unknown_token_responses (ctx : Ctx) (db : DB) (token : String)
    (h : lookupToken db token = none) :
    (docs_page ctx db token).1 = .ok (.text "Invalid link." 404) ∧
    fetch_pdf ctx db token = (.aborted 500, db) ∧
    (fetch_pdf ctx db token).1.status = 500 ∧
    ¬ (fetch_pdf ctx db token).1.status = 404 := by
  refine ⟨?_, ?_, ?_, ?_⟩ <;>
    simp [docs_page, fetch_pdf, fetch_inner, h, HResp.status]

/-- Witness for unknown_token_responses at the empty store. -/
theorem unknown_token_responses_witness :
    lookupToken dbEmpty "t" = none ∧
    ((docs_page ctx0 dbEmpty "t").1 = .ok (.text "Invalid link." 404) ∧
     fetch_pdf ctx0 dbEmpty "t" = (.aborted 500, dbEmpty) ∧
     (fetch_pdf ctx0 dbEmpty "t").1.status = 500 ∧
     ¬ (fetch_pdf ctx0 dbEmpty "t").1.status = 404) :=
  ⟨by decide, unknown_token_responses ctx0 dbEmpty "t" (by decide)⟩

/-- Claim C2: once a record is resolved and its expiry string parsed,
an expiry strictly before now yields 410 (body Link expired.) on the
docs route and 403 with body Link expired on the fetch route, while
an expiry at or after now lets both routes proceed past the expiry
check — in particular expiry equal to now is not treated as expired,
matching the strict comparison now > expires at lines 44 and 79. -/
theorem expiry_check_responses (ctx : Ctx) (db : DB) (token : String)
    (info : LinkRecord) (e : Int)
    (h1 : lookupToken db token = some info)
    (h2 : parseExpiry ctx info.expires_at = some e) :
    (e < ctx.now →
      (docs_page ctx db token).1 = .ok (.text "Link expired." 410) ∧
      (fetch_pdf ctx db token).1 = .text "Link expired" 403) ∧
    (ctx.now ≤ e →
      (docs_page ctx db token).1 = .ok (.page token (info.lender_name.getD "")) ∧
      ¬ (docs_page ctx db token).1 = .ok (.text "Link expired." 410) ∧
      ¬ (fetch_pdf ctx db token).1 = .text "Link expired" 403 ∧
      ¬ (fetch_pdf ctx db token).1.status = 403) := by
  constructor
  · intro hlt
    constructor
    · simp [docs_page, h1, h2, hlt]
    · simp [fetch_pdf, fetch_inner, h1, h2, hlt]
  · intro hle
    have hn : ¬ ctx.now > e := not_lt.mpr hle
    refine ⟨by simp [docs_page, h1, h2, hn], by simp [docs_page, h1, h2, hn], ?_, ?_⟩
    · rcases fetch_pdf_not_expired_shape ctx db token info e h1 h2 hn with hs | ⟨body, _, hs⟩ <;>
        simp [hs]
    · rcases fetch_pdf_not_expired_shape ctx db token info e h1 h2 hn with hs | ⟨body, _, hs⟩ <;>
        simp [hs, HResp.status]

/-- Witness for expiry_check_responses in the expired scenario:
clock at 30, expiry parsing to 20. -/
theorem expiry_check_responses_witness :
    lookupToken db0 "tok" = some rec0 ∧
    parseExpiry ctxLate rec0.expires_at = some 20 ∧
    (docs_page ctxLate db0 "tok").1 = .ok (.text "Link expired." 410) ∧
    (fetch_pdf ctxLate db0 "tok").1 = .text "Link expired" 403 :=
  ⟨by decide, rfl,
   (expiry_check_responses ctxLate db0 "tok" rec0 20 (by decide) rfl).1 (by decide)⟩

/-- Claim C3: for a valid non-expired token, a raising view insert is
caught inside docs_page, which still returns the rendered landing
page (and appends nothing); a raising download insert after a
successful byte fetch is caught only by the outer except Exception of
fetch_pdf, which answers the generic 500. -/
theorem logging_failure_isolation (ctx : Ctx) (db : DB) (token : String)
    (info : LinkRecord) (e : Int) (p : String) (body : List Nat)
    (h1 : lookupToken db token = some info)
    (h2 : parseExpiry ctx info.expires_at = some e)
    (h3 : ctx.now ≤ e)
    (h4 : info.pdf_path = .str p)
    (h5 : ctx.fetchOutcome = .response 200 body)
    (h6 : ctx.viewInsertRaises = true)
    (h7 : ctx.downloadInsertRaises = true) :
    docs_page ctx db token = (.ok (.page token (info.lender_name.getD "")), db) ∧
    fetch_pdf ctx db token = (.aborted 500, db) := by
  have hn : ¬ ctx.now > e := not_lt.mpr h3
  constructor
  · simp [docs_page, h1, h2, hn, h6]
  · simp [fetch_pdf, fetch_inner, h1, h2, hn, h4, h5, h7]

/-- Witness for logging_failure_isolation: both inserts raise. -/
theorem logging_failure_isolation_witness :
    lookupToken db0 "tok" = some rec0 ∧
    parseExpiry ctxRaise rec0.expires_at = some 20 ∧
    ctxRaise.now ≤ 20 ∧
    rec0.pdf_path = .str "deals/a.pdf" ∧
    ctxRaise.fetchOutcome = .response 200 [37, 80, 68, 70] ∧
    ctxRaise.viewInsertRaises = true ∧
    ctxRaise.downloadInsertRaises = true ∧
    (docs_page ctxRaise db0 "tok" =
       (.ok (.page "tok" (rec0.lender_name.getD "")), db0) ∧
     fetch_pdf ctxRaise db0 "tok" = (.aborted 500, db0)) :=
  ⟨by decide, rfl, by decide, by decide, by decide, by decide, by decide,
   logging_failure_isolation ctxRaise db0 "tok" rec0 20 "deals/a.pdf"
     [37, 80, 68, 70] (by decide) rfl (by decide) (by decide) (by decide)
     (by decide) (by decide)⟩

/-- Claim C4: for a valid non-expired token whose upstream fetch
answers 200 (and whose download insert succeeds), fetch_pdf appends
exactly one download row and answers 200 with a send_file response
carrying byte-for-byte the fetched body, mimetype application/pdf,
as_attachment set, and the resolved download filename. -/
theorem successful_fetch_response (ctx : Ctx) (db : DB) (token : String)
    (info : LinkRecord) (e : Int) (p : String) (body : List Nat)
    (h1 : lookupToken db token = some info)
    (h2 : parseExpiry ctx info.expires_at = some e)
    (h3 : ctx.now ≤ e)
    (h4 : info.pdf_path = .str p)
    (h5 : ctx.fetchOutcome = .response 200 body)
    (h6 : ctx.downloadInsertRaises = false) :
    fetch_pdf ctx db token =
      (.file body "application/pdf" true (resolveFilename info),
       { db with downloads := db.downloads ++ [eventRow ctx token info] }) ∧
    (fetch_pdf ctx db token).1.status = 200 ∧
    (fetch_pdf ctx db token).2.downloads =
      db.downloads ++ [eventRow ctx token info] := by
  have hn : ¬ ctx.now > e := not_lt.mpr h3
  refine ⟨?_, ?_, ?_⟩ <;>
    simp [fetch_pdf, fetch_inner, h1, h2, hn, h4, h5, h6, HResp.status]

/-- Witness for successful_fetch_response in the all-good scenario. -/
theorem successful_fetch_response_witness :
    lookupToken db0 "tok" = some rec0 ∧
    parseExpiry ctx0 rec0.expires_at = some 20 ∧
    ctx0.now ≤ 20 ∧
    rec0.pdf_path = .str "deals/a.pdf" ∧
    ctx0.fetchOutcome = .response 200 [37, 80, 68, 70] ∧
    ctx0.downloadInsertRaises = false ∧
    (fetch_pdf ctx0 db0 "tok" =
       (.file [37, 80, 68, 70] "application/pdf" true (resolveFilename rec0),
        { db0 with downloads := db0.downloads ++ [eventRow ctx0 "tok" rec0] }) ∧
     (fetch_pdf ctx0 db0 "tok").1.status = 200 ∧
     (fetch_pdf ctx0 db0 "tok").2.downloads =
       db0.downloads ++ [eventRow ctx0 "tok" rec0]) :=
  ⟨by decide, rfl, by decide, by decide, by decide, by decide,
   successful_fetch_response ctx0 db0 "tok" rec0 20 "deals/a.pdf"
     [37, 80, 68, 70] (by decide) rfl (by decide) (by decide) (by decide)
     (by decide)⟩

/-- Claim C5: for a valid non-expired token whose upstream fetch
answers a non-200 status, fetch_pdf answers 500 — abort(500) at line
90, re-raised as abort(500) by the outer handler — and no download
row is appended: the insert at line 95 is never reached. -/
theorem upstream_failure_response (ctx : Ctx) (db : DB) (token : String)
    (info : LinkRecord) (e : Int) (p : String) (s : Nat) (body : List Nat)
    (h1 : lookupToken db token = some info)
    (h2 : parseExpiry ctx info.expires_at = some e)
    (h3 : ctx.now ≤ e)
    (h4 : info.pdf_path = .str p)
    (h5 : ctx.fetchOutcome = .response s body)
    (h6 : ¬ s = 200) :
    fetch_pdf ctx db token = (.aborted 500, db) ∧
    (fetch_pdf ctx db token).1.status = 500 ∧
    (fetch_pdf ctx db token).2.downloads = db.downloads := by
  have hn : ¬ ctx.now > e := not_lt.mpr h3
  refine ⟨?_, ?_, ?_⟩ <;>
    simp [fetch_pdf, fetch_inner, h1, h2, hn, h4, h5, h6, HResp.status]

/-- Witness for upstream_failure_response with an upstream 503. -/
theorem upstream_failure_response_witness :
    lookupToken db0 "tok" = some rec0 ∧
    parseExpiry ctx503 rec0.expires_at = some 20 ∧
    ctx503.now ≤ 20 ∧
    rec0.pdf_path = .str "deals/a.pdf" ∧
    ctx503.fetchOutcome = .response 503 [] ∧
    ¬ (503 : Nat) = 200 ∧
    (fetch_pdf ctx503 db0 "tok" = (.aborted 500, db0) ∧
     (fetch_pdf ctx503 db0 "tok").1.status = 500 ∧
     (fetch_pdf ctx503 db0 "tok").2.downloads = db0.downloads) :=
  ⟨by decide, rfl, by decide, by decide, by decide, by decide,
   upstream_failure_response ctx503 db0 "tok" rec0 20 "deals/a.pdf" 503 []
     (by decide) rfl (by decide) (by decide) (by decide) (by decide)⟩

/-- Claim C6 counterexample: a successful fetch of a record whose
filename and lender_name columns are both null serves the filename
None.pdf, not document.pdf — at line 109 the fallback
info.get(lender_name, document) returns None for a present-but-null
key and the f-string renders it as the text None. -/
theorem filename_fallback_counterexample :
    recNull.filename.get = none ∧
    recNull.lender_name.get = none ∧
    (fetch_pdf ctx0 dbNull "tok").1 =
      .file [37, 80, 68, 70] "application/pdf" true "None.pdf" ∧
    ¬ resolveFilename recNull = "document.pdf" :=
  ⟨rfl, rfl, by decide, by decide⟩

/-- Claim C6 as amended: on a successful fetch the served filename is
the record's explicit filename when that is a non-empty string;
otherwise it is lender.pdf when the lender_name column holds a
string, document.pdf when the lender_name key is absent from the
record dict, and None.pdf (the f-string rendering of Python None)
when the lender_name key is present with a null value, because
dict.get(lender_name, document) falls back to document only for an
absent key. -/
theorem resolved_filename_cases (ctx : Ctx) (db : DB) (token : String)
    (info : LinkRecord) (e : Int) (p : String) (body : List Nat)
    (h1 : lookupToken db token = some info)
    (h2 : parseExpiry ctx info.expires_at = some e)
    (h3 : ctx.now ≤ e)
    (h4 : info.pdf_path = .str p)
    (h5 : ctx.fetchOutcome = .response 200 body)
    (h6 : ctx.downloadInsertRaises = false) :
    (fetch_pdf ctx db token).1 =
      .file body "application/pdf" true (resolveFilename info) ∧
    (∀ s, info.filename = .str s → ¬ s = "" → resolveFilename info = s) ∧
    (info.filename = .missing ∨ info.filename = .null ∨ info.filename = .str "" →
      (∀ l, info.lender_name = .str l → resolveFilename info = l ++ ".pdf") ∧
      (info.lender_name = .missing → resolveFilename info = "document.pdf") ∧
      (info.lender_name = .null → resolveFilename info = "None.pdf")) := by
  have hn : ¬ ctx.now > e := not_lt.mpr h3
  refine ⟨by simp [fetch_pdf, fetch_inner, h1, h2, hn, h4, h5, h6], ?_, ?_⟩
  · intro s hs hne
    simp [resolveFilename, hs, Field.get, hne]
  · intro hf
    refine ⟨?_, ?_, ?_⟩
    · intro l hl
      rcases hf with hf | hf | hf <;>
        simp [resolveFilename, hf, hl, Field.get, Field.getD, pyStr]
    · intro hl
      rcases hf with hf | hf | hf <;>
        simp [resolveFilename, hf, hl, Field.get, Field.getD, pyStr]
    · intro hl
      rcases hf with hf | hf | hf <;>
        simp [resolveFilename, hf, hl, Field.get, Field.getD, pyStr]

/-- Witness for resolved_filename_cases at the record with null
filename and lender_name columns. -/
theorem resolved_filename_cases_witness :
    lookupToken dbNull "tok" = some recNull ∧
    parseExpiry ctx0 recNull.expires_at = some 20 ∧
    ctx0.now ≤ 20 ∧
    recNull.pdf_path = .str "deals/b.pdf" ∧
    ctx0.fetchOutcome = .response 200 [37, 80, 68, 70] ∧
    ctx0.downloadInsertRaises = false ∧
    ((fetch_pdf ctx0 dbNull "tok").1 =
       .file [37, 80, 68, 70] "application/pdf" true (resolveFilename recNull) ∧
     (∀ s, recNull.filename = .str s → ¬ s = "" → resolveFilename recNull = s) ∧
     (recNull.filename = .missing ∨ recNull.filename = .null ∨
        recNull.filename = .str "" →
       (∀ l, recNull.lender_name = .str l →
          resolveFilename recNull = l ++ ".pdf") ∧
       (recNull.lender_name = .missing →
          resolveFilename recNull = "document.pdf") ∧
       (recNull.lender_name = .null →
          resolveFilename recNull = "None.pdf"))) :=
  ⟨by decide, rfl, by decide, by decide, by decide, by decide,
   resolved_filename_cases ctx0 dbNull "tok" recNull 20 "deals/b.pdf"
     [37, 80, 68, 70] (by decide) rfl (by decide) (by decide) (by decide)
     (by decide)⟩

/-- Claim C7: for a valid non-expired token with a succeeding view
insert, docs_page appends exactly one view row, and that row's
token, lender_name and recipient_email fields equal the
corresponding fields of the resolved link record (the inserted token
is the request token, which the lookup filter forces to equal the
record's token column). -/
theorem view_event_logged (ctx : Ctx) (db : DB) (token : String)
    (info : LinkRecord) (e : Int)
    (h1 : lookupToken db token = some info)
    (h2 : parseExpiry ctx info.expires_at = some e)
    (h3 : ctx.now ≤ e)
    (h4 : ctx.viewInsertRaises = false) :
    (docs_page ctx db token).2.views = db.views ++ [eventRow ctx token info] ∧
    (eventRow ctx token info).token = info.token ∧
    (eventRow ctx token info).lender_name = info.lender_name.get ∧
    (eventRow ctx token info).recipient_email = info.recipient_email.get := by
  have hn : ¬ ctx.now > e := not_lt.mpr h3
  refine ⟨by simp [docs_page, h1, h2, hn, h4], ?_, rfl, rfl⟩
  show token = info.token
  exact (lookupToken_token_eq db token info h1).symm

/-- Witness for view_event_logged in the all-good scenario. -/
theorem view_event_logged_witness :
    lookupToken db0 "tok" = some rec0 ∧
    parseExpiry ctx0 rec0.expires_at = some 20 ∧
    ctx0.now ≤ 20 ∧
    ctx0.viewInsertRaises = false ∧
    ((docs_page ctx0 db0 "tok").2.views =
       db0.views ++ [eventRow ctx0 "tok" rec0] ∧
     (eventRow ctx0 "tok" rec0).token = rec0.token ∧
     (eventRow ctx0 "tok" rec0).lender_name = rec0.lender_name.get ∧
     (eventRow ctx0 "tok" rec0).recipient_email = rec0.recipient_email.get) :=
  ⟨by decide, rfl, by decide, by decide,
   view_event_logged ctx0 db0 "tok" rec0 20 (by decide) rfl (by decide)
     (by decide)⟩

/-- Claim C8: when the resolved record's expires_at column is absent,
null, or fails to parse after replacing Z with +00:00, docs_page lets
the exception escape (the handler has no outer error boundary) and
fetch_pdf answers 500 through its outer except Exception; neither
route produces a 404, 410 or 403 response for such a record. -/
theorem bad_expiry_behaviour (ctx : Ctx) (db : DB) (token : String)
    (info : LinkRecord)
    (h1 : lookupToken db token = some info)
    (h2 : parseExpiry ctx info.expires_at = none) :
    docs_page ctx db token = (.error .err, db) ∧
    fetch_pdf ctx db token = (.aborted 500, db) ∧
    (fetch_pdf ctx db token).1.status = 500 ∧
    (∀ r, ¬ (docs_page ctx db token).1 = .ok r) := by
  refine ⟨?_, ?_, ?_, ?_⟩ <;>
    simp [docs_page, fetch_pdf, fetch_inner, h1, h2, HResp.status]

/-- ctx0 with an ISO parser that rejects every string, standing for a
record whose expiry string datetime.fromisoformat cannot parse. -/
def ctxNoParse : Ctx := { ctx0 with fromisoformat := fun _ => none }

/-- Witness for bad_expiry_behaviour with an unparseable expiry. -/
theorem bad_expiry_behaviour_witness :
    lookupToken db0 "tok" = some rec0 ∧
    parseExpiry ctxNoParse rec0.expires_at = none ∧
    (docs_page ctxNoParse db0 "tok" = (.error .err, db0) ∧
     fetch_pdf ctxNoParse db0 "tok" = (.aborted 500, db0) ∧
     (fetch_pdf ctxNoParse db0 "tok").1.status = 500 ∧
     (∀ r, ¬ (docs_page ctxNoParse db0 "tok").1 = .ok r)) :=
  ⟨by decide, rfl,
   bad_expiry_behaviour ctxNoParse db0 "tok" rec0 (by decide) rfl⟩

/-- Claim C9: every event row either handler appends stores as
user_agent the User-Agent header truncated to its first 500
characters — exactly 500 characters when the header is longer, and
the empty string when the header is absent. -/
theorem user_agent_truncated (ctx : Ctx) (db : DB) (token : String) :
    (∀ r, r ∈ (docs_page ctx db token).2.views → r ∈ db.views ∨
       r.user_agent = takePy (ctx.userAgent.getD "") 500) ∧
    (∀ r, r ∈ (fetch_pdf ctx db token).2.downloads → r ∈ db.downloads ∨
       r.user_agent = takePy (ctx.userAgent.getD "") 500) ∧
    (takePy (ctx.userAgent.getD "") 500).length ≤ 500 ∧
    (∀ s, ctx.userAgent = some s → 500 < s.length →
       (takePy s 500).length = 500) ∧
    (ctx.userAgent = none → takePy (ctx.userAgent.getD "") 500 = "") := by
  refine ⟨?_, ?_, ?_, ?_, ?_⟩
  · intro r hr
    rcases docs_page_db ctx db token with h | ⟨info, _, h⟩
    · rw [h] at hr
      exact .inl hr
    · rw [h] at hr
      simp only [List.mem_append, List.mem_singleton] at hr
      rcases hr with hr | hr
      · exact .inl hr
      · right
        rw [hr]
        rfl
  · intro r hr
    rcases fetch_pdf_db ctx db token with h | ⟨info, _, h⟩
    · rw [h] at hr
      exact .inl hr
    · rw [h] at hr
      simp only [List.mem_append, List.mem_singleton] at hr
      rcases hr with hr | hr
      · exact .inl hr
      · right
        rw [hr]
        rfl
  · have := takePy_length (ctx.userAgent.getD "") 500
    omega
  · intro s _ hlen
    have := takePy_length s 500
    omega
  · intro h
    rw [h]
    rfl

/-- A 600-character user agent string. -/
def longUA : String := ⟨List.replicate 600 'a'⟩

/-- ctx0 carrying the 600-character user agent. -/
def ctxLongUA : Ctx := { ctx0 with userAgent := some longUA }

set_option maxRecDepth 4000 in
/-- Witness for user_agent_truncated on a 600-character header. -/
theorem user_agent_truncated_witness :
    ctxLongUA.userAgent = some longUA ∧
    500 < longUA.length ∧
    (takePy longUA 500).length = 500 :=
  ⟨rfl, by decide,
   (user_agent_truncated ctxLongUA db0 "tok").2.2.2.1 longUA rfl (by decide)⟩

/-- Claim C10: neither handler mutates or deletes link records, and
the only writes are appends to the event tables: both handlers
return the links table unchanged, docs_page leaves downloads
unchanged and at most appends to views, and fetch_pdf leaves views
unchanged and at most appends to downloads. -/
theorem links_read_only (ctx : Ctx) (db : DB) (token : String) :
    (docs_page ctx db token).2.links = db.links ∧
    (fetch_pdf ctx db token).2.links = db.links ∧
    (docs_page ctx db token).2.downloads = db.downloads ∧
    (fetch_pdf ctx db token).2.views = db.views ∧
    (∃ d, (docs_page ctx db token).2.views = db.views ++ d) ∧
    (∃ d, (fetch_pdf ctx db token).2.downloads = db.downloads ++ d) := by
  refine ⟨?_, ?_, ?_, ?_, ?_, ?_⟩
  · rcases docs_page_db ctx db token with h | ⟨i, _, h⟩ <;> simp [h]
  · rcases fetch_pdf_db ctx db token with h | ⟨i, _, h⟩ <;> simp [h]
  · rcases docs_page_db ctx db token with h | ⟨i, _, h⟩ <;> simp [h]
  · rcases fetch_pdf_db ctx db token with h | ⟨i, _, h⟩ <;> simp [h]
  · rcases docs_page_db ctx db token with h | ⟨i, _, h⟩
    · exact ⟨[], by simp [h]⟩
    · exact ⟨[eventRow ctx token i], by simp [h]⟩
  · rcases fetch_pdf_db ctx db token with h | ⟨i, _, h⟩
    · exact ⟨[], by simp [h]⟩
    · exact ⟨[eventRow ctx token i], by simp [h]⟩

end Endpoint
